import Mathlib

/-!
Verification development for the news-summarizer repository
(`news_parser.py`, `ai_summarizer.py`, `news_summarizer_app.py`).

The Python code is shallowly embedded: pure string manipulation becomes
functions on `List Char` / `String`; every external effect (HTTP fetch,
the newspaper3k library, the feed parser, the LLM completion API) is an
explicit input value; Python exceptions become `Except String` with the
exception message as the payload, and a `try/except` block becomes a
`match` on the `Except` value of the embedded try-body.

Text is modelled at the level of ASCII character classes (Python `\s`,
`str.isdigit`, `str.lower` are modelled by their ASCII behaviour, which
is exact on ASCII input).
-/

/-! ## Character and list-of-char utilities -/

/-- ASCII whitespace, modelling Python regex `\s` and `str.strip`. -/
def isWS (c : Char) : Bool :=
  c = ' ' || c = '\t' || c = '\n' || c = '\r' || c = '\x0b' || c = '\x0c'

/-- Lower-case a character list (Python `str.lower` on ASCII). -/
def lowerL (s : List Char) : List Char := s.map Char.toLower

/-- `hasPfxB p s`: `p` is a prefix of `s` (exact character comparison). -/
def hasPfxB : List Char → List Char → Bool
  | [], _ => true
  | _ :: _, [] => false
  | p :: ps, c :: cs => p = c && hasPfxB ps cs

/-- `containsB p s`: `p` occurs as a contiguous substring of `s`
(Python `p in s`). -/
def containsB (pat : List Char) : List Char → Bool
  | [] => hasPfxB pat []
  | s@(_ :: cs) => hasPfxB pat s || containsB pat cs

/-- `containsS p s`: substring test on `String` (Python `p in s`). -/
def containsS (pat s : String) : Bool := containsB pat.data s.data

/-- Try to strip `pat` (given lower-case) from the front of `s`,
comparing case-insensitively; return the rest on success. -/
def matchLowerPfx : List Char → List Char → Option (List Char)
  | [], s => some s
  | _ :: _, [] => none
  | p :: ps, c :: cs => if c.toLower = p then matchLowerPfx ps cs else none

/-- Try to strip `pat` from the front of `s`, case-sensitively. -/
def matchExactPfx : List Char → List Char → Option (List Char)
  | [], s => some s
  | _ :: _, [] => none
  | p :: ps, c :: cs => if c = p then matchExactPfx ps cs else none

/-- Drop leading and trailing ASCII whitespace (Python `str.strip`). -/
def dropEndWS (l : List Char) : List Char :=
  ((l.reverse).dropWhile isWS).reverse

def stripWS (l : List Char) : List Char :=
  dropEndWS (l.dropWhile isWS)

/-- Python `str.strip` on `String`. -/
def pyStrip (s : String) : String := ⟨stripWS s.data⟩

/-- Python `str.lower` on `String` (ASCII model). -/
def pyLower (s : String) : String := ⟨lowerL s.data⟩

/-- Join a list of strings with a separator (Python `sep.join`). -/
def joinStr (sep : String) : List String → String
  | [] => ""
  | [x] => x
  | x :: xs => x ++ sep ++ joinStr sep xs

/-- Split on newline characters (Python `str.split('\n')`). -/
def splitLinesPy : List Char → List (List Char)
  | [] => [[]]
  | c :: cs =>
    match splitLinesPy cs with
    | [] => [[c]]
    | l :: ls => if c = '\n' then [] :: l :: ls else (c :: l) :: ls

/-! ## Text Cleaner (`NewsParser.clean_text`) -/

/-- State-passing whitespace collapapse: `re.sub(r'\s+', ' ', text)`.
The flag records whether we are inside a whitespace run. -/
def collapseAux : Bool → List Char → List Char
  | _, [] => []
  | inWS, c :: cs =>
    if isWS c then
      (if inWS then collapseAux true cs else ' ' :: collapseAux true cs)
    else c :: collapseAux false cs

def collapseWS (s : List Char) : List Char := collapseAux false s

/-- The four boilerplate phrases of
`re.sub(r'Share this article|Follow us|Subscribe|Newsletter', '', text, flags=re.IGNORECASE)`,
stored lower-case for the case-insensitive comparison. -/
def shareL : List Char := ['s','h','a','r','e',' ','t','h','i','s',' ','a','r','t','i','c','l','e']
def followL : List Char := ['f','o','l','l','o','w',' ','u','s']
def subscribeL : List Char := ['s','u','b','s','c','r','i','b','e']
def newsletterL : List Char := ['n','e','w','s','l','e','t','t','e','r']

/-- Try the four alternatives of the boilerplate pattern, in the
pattern's left-to-right order, at the current position. -/
def matchBoiler (s : List Char) : Option (List Char) :=
  match matchLowerPfx shareL s with
  | some r => some r
  | none =>
    match matchLowerPfx followL s with
    | some r => some r
    | none =>
      match matchLowerPfx subscribeL s with
      | some r => some r
      | none => matchLowerPfx newsletterL s

/-- Left-to-right, non-overlapping removal of the boilerplate phrases
(`re.sub` scanning).  The fuel argument is the length of the input;
every step consumes at least one character so it never runs out. -/
def removePhrasesF : Nat → List Char → List Char
  | _, [] => []
  | 0, s => s
  | f + 1, c :: cs =>
    match matchBoiler (c :: cs) with
    | some rest => removePhrasesF f rest
    | none => c :: removePhrasesF f cs

def removePhrases (s : List Char) : List Char := removePhrasesF s.length s

def httpL : List Char := ['h','t','t','p']
def httpsSlashL : List Char := ['h','t','t','p','s',':','/','/']
def httpSlashL : List Char := ['h','t','t','p',':','/','/']

/-- One attempted match of `https?://[^\s]+` at the current position:
the literal prefix (greedy optional `s`, which never needs backtracking
because `"http://"` mismatches any text starting `"https://"`), then a
non-empty maximal run of non-whitespace. Returns the rest of the text
after the match. -/
def matchURL (s : List Char) : Option (List Char) :=
  match (match matchExactPfx httpsSlashL s with
         | some r => some r
         | none => matchExactPfx httpSlashL s) with
  | none => none
  | some r =>
    match r with
    | [] => none
    | c :: _ => if isWS c then none else some (r.dropWhile (fun x => !isWS x))

/-- Left-to-right removal of URL tokens: `re.sub(r'https?://[^\s]+', '', text)`. -/
def removeURLsF : Nat → List Char → List Char
  | _, [] => []
  | 0, s => s
  | f + 1, c :: cs =>
    match matchURL (c :: cs) with
    | some rest => removeURLsF f rest
    | none => c :: removeURLsF f cs

def removeURLs (s : List Char) : List Char := removeURLsF s.length s

/-- `NewsParser.clean_text`: collapse whitespace, remove boilerplate
phrases case-insensitively, remove URL tokens, strip. -/
def clean_text (s : String) : String :=
  if s = "" then ""
  else ⟨stripWS (removeURLs (removePhrases (collapseWS s.data)))⟩

example : clean_text "a Subscribe b" = "a  b" := by decide
example : clean_text "a  Follow  us  b" = "a  b" := by decide
example : clean_text " x https://t.co/abc y " = "x  y" := by decide
example : clean_text "SubSubscribescribe" = "Subscribe" := by decide

/-! ## Site Classifier (`NewsParser.detect_website_type`)

`urlparse(url).netloc` is modelled for absolute URLs: the characters
after the first `"//"` up to the next `/`, `?` or `#` (empty when the
URL has no `"//"`), which is `urllib.parse`'s behaviour on URLs of the
form `scheme://host/path?query#fragment`. -/

def stopChar (c : Char) : Bool := c = '/' || c = '?' || c = '#'

def takeNetloc : List Char → List Char
  | [] => []
  | c :: cs => if stopChar c then [] else c :: takeNetloc cs

def findNetloc : List Char → List Char
  | [] => []
  | c :: cs =>
    if c = '/' then
      match cs with
      | d :: ds => if d = '/' then takeNetloc ds else findNetloc cs
      | [] => []
    else findNetloc cs

def netloc (url : String) : String := ⟨findNetloc url.data⟩

def bbcPat : List Char := ['b','b','c']
def cnnPat : List Char := ['c','n','n']
def reutersPat : List Char := ['r','e','u','t','e','r','s']

/-- `NewsParser.detect_website_type`: lower-cased netloc, substring
match against the brand tokens, first match wins, default `"generic"`. -/
def detect_website_type (url : String) : String :=
  let domain := lowerL (netloc url).data
  if containsB bbcPat domain then "bbc"
  else if containsB cnnPat domain then "cnn"
  else if containsB reutersPat domain then "reuters"
  else "generic"

example : detect_website_type "https://www.BBC.co.uk/news/article?cnn=1" = "bbc" := by decide
example : detect_website_type "https://edition.cnn.com/2024/story" = "cnn" := by decide
example : detect_website_type "https://example.org/bbc" = "generic" := by decide

/-! ## Extractor data model

`Extracted` is the dictionary either extractor returns on success
(newspaper3k also fills `keywords`; the BeautifulSoup dictionary has no
`keywords` key, which reads back as `''` via `.get('keywords', '')`,
modelled as the empty string). -/

structure Extracted where
  title : String
  content : String
  summary : String
  author : String
  date : String
  keywords : String
  method : String
deriving DecidableEq

/-- `result.get('content', '')` where `result` may be the empty dict. -/
def contentOf : Option Extracted → String
  | none => ""
  | some a => a.content

/-- The outcome of the newspaper3k library calls
(`Article(url); download(); parse(); nlp()`): either an exception, or a
parsed article object.  Fields that can be `None` are `Option`s
(the code applies `or ''` / `if ... else ''` defaults). -/
structure NPArticle where
  title : Option String
  text : Option String
  summary : Option String
  authors : List String
  publish_date : Option String
  keywords : List String
deriving DecidableEq

def NPOutcome := Except String NPArticle

/-- `NewsParser.extract_with_newspaper`: on any exception returns `{}`
(modelled `none`); otherwise builds the seven-field dictionary. -/
def extract_with_newspaper (np : NPOutcome) : Option Extracted :=
  match np with
  | .error _ => none
  | .ok a =>
    some
      { title := a.title.getD ""
        content := a.text.getD ""
        summary := a.summary.getD ""
        author := if a.authors ≠ [] then joinStr ", " a.authors else ""
        date := match a.publish_date with | some d => d | none => ""
        keywords := if a.keywords ≠ [] then joinStr ", " a.keywords else ""
        method := "newspaper3k" }

/-! ## Selector-Based Extractor (`NewsParser.extract_with_beautifulsoup`) -/

/-- A parsed HTML document, abstracted as the association of each CSS
selector string with the list of stripped texts of the elements it
matches (`soup.select`); selectors not listed match nothing. -/
abbrev Soup := List (String × List String)

def soupSelect (soup : Soup) (sel : String) : List String :=
  match soup.find? (fun p => p.1 = sel) with
  | some p => p.2
  | none => []

/-- `soup.select_one`: the first matched element, if any. -/
def soupSelectOne (soup : Soup) (sel : String) : Option String :=
  (soupSelect soup sel).head?

/-- Try each selector in order with `select_one`, first hit wins
(the per-field loops for title / summary / author / date). -/
def selectFirstOne (soup : Soup) : List String → Option String
  | [] => none
  | s :: rest =>
    match soupSelectOne soup s with
    | some t => some t
    | none => selectFirstOne soup rest

/-- Try each selector in order with `select`, first selector matching a
non-empty element list wins (the content loop). -/
def selectFirstAll (soup : Soup) : List String → Option (List String)
  | [] => none
  | s :: rest =>
    if soupSelect soup s ≠ [] then some (soupSelect soup s)
    else selectFirstAll soup rest

/-- One entry of `NewsParser.selectors`. -/
structure SelEntry where
  title : List String
  content : List String
  summary : List String
  author : List String
  date : List String

/-- The `self.selectors` table, verbatim from the source. -/
def selectorTable (website_type : String) : Option SelEntry :=
  if website_type = "generic" then
    some
      { title := ["h1", "h2", ".title", ".headline", "[class*=\"title\"]", "[class*=\"headline\"]"]
        content := ["article", ".content", ".article-content", ".story-content", ".post-content", "[class*=\"content\"]"]
        summary := [".summary", ".excerpt", ".description", "[class*=\"summary\"]"]
        author := [".author", ".byline", "[class*=\"author\"]", "[class*=\"byline\"]"]
        date := [".date", ".time", ".published", "[class*=\"date\"]", "[class*=\"time\"]"] }
  else if website_type = "bbc" then
    some
      { title := ["h1", ".story-body__h1"]
        content := [".story-body__inner", ".story-body__introduction"]
        summary := [".story-body__introduction"]
        author := [".byline__name"]
        date := [".date", ".timestamp"] }
  else if website_type = "cnn" then
    some
      { title := [".headline__text", "h1"]
        content := [".article__content", ".l-container"]
        summary := [".article__subtitle"]
        author := [".byline__name"]
        date := [".timestamp"] }
  else if website_type = "reuters" then
    some
      { title := ["h1", ".article-header__title"]
        content := [".article-content__content__2gQno", ".article-body__content__17Yit"]
        summary := [".article-header__summary__1l7fm"]
        author := [".article-header__author__1l7fm"]
        date := [".article-header__timestamp__1l7fm"] }
  else none

/-- The outcome of `self.session.get(url, timeout=10)`: a response with
a status code and parsed document, or a raised network/timeout error. -/
inductive Fetch where
  | ok (status : Nat) (soup : Soup)
  | netErr (msg : String)

/-- `response.raise_for_status()`: raises exactly on 4xx/5xx statuses. -/
def raise_for_status (status : Nat) : Except String Unit :=
  if 400 ≤ status ∧ status < 600 then .error "HTTPError" else .ok ()

/-- The `try`-body of `extract_with_beautifulsoup`: fetch, raise on bad
status, look up the selector table (a missing key would be a `KeyError`),
walk the selectors, clean content and summary. -/
def bsTryBody (fetch : Fetch) (website_type : String) : Except String Extracted :=
  match fetch with
  | .netErr msg => .error msg
  | .ok status soup =>
    match raise_for_status status with
    | .error e => .error e
    | .ok _ =>
      match selectorTable website_type with
      | none => .error "KeyError"
      | some sel =>
        let title := (selectFirstOne soup sel.title).getD ""
        let content :=
          match selectFirstAll soup sel.content with
          | some texts => joinStr " " texts
          | none => ""
        let summary := (selectFirstOne soup sel.summary).getD ""
        let author := (selectFirstOne soup sel.author).getD ""
        let date := (selectFirstOne soup sel.date).getD ""
        .ok
          { title := title
            content := clean_text content
            summary := clean_text summary
            author := author
            date := date
            keywords := ""
            method := "beautifulsoup" }

/-- `NewsParser.extract_with_beautifulsoup`: the whole body is wrapped
in `try/except Exception`, which logs and returns `{}` (modelled
`none`), so the function never lets an exception reach its caller. -/
def extract_with_beautifulsoup (fetch : Fetch) (website_type : String) :
    Except String (Option Extracted) :=
  match bsTryBody fetch website_type with
  | .ok r => .ok (some r)
  | .error _ => .ok none

/-! ## Extraction Orchestrator (`NewsParser.parse_news_url`) -/

/-- The record `parse_news_url` hands back: the chosen extractor
dictionary (or `{}` when both failed) with `url` and `website_type`
stamped on.  (`extraction_time`, a wall-clock timestamp, is outside the
embedding.) -/
structure FinalRecord where
  base : Option Extracted
  url : String
  website_type : String
deriving DecidableEq

/-- The condition under which `parse_news_url` invokes the
selector-based extractor:
`if not result or len(result.get('content', '')) < 100`. -/
def selector_invoked (np : NPOutcome) : Bool :=
  (extract_with_newspaper np).isNone ||
    decide ((contentOf (extract_with_newspaper np)).length < 100)

/-- `NewsParser.parse_news_url`: newspaper3k first; if absent or short
(<100 chars), try BeautifulSoup; replace only if the selector result is
a non-empty dict with strictly longer content; stamp metadata. -/
def parse_news_url (np : NPOutcome) (fetch : Fetch) (url : String) :
    Except String FinalRecord :=
  let website_type := detect_website_type url
  let result := extract_with_newspaper np
  let merged : Except String (Option Extracted) :=
    if selector_invoked np then
      match extract_with_beautifulsoup fetch website_type with
      | .error e => .error e
      | .ok bs_result =>
        .ok
          (if bs_result.isSome ∧ (contentOf result).length < (contentOf bs_result).length
           then bs_result else result)
    else .ok result
  match merged with
  | .error e => .error e
  | .ok r => .ok { base := r, url := url, website_type := website_type }

/-! ## RSS Extractor (`NewsParser.parse_rss_feed`) -/

/-- A raw feed entry as `feedparser` yields it: every field optional
(`entry.get(key, '')`). -/
structure RawEntry where
  title : Option String
  summary : Option String
  link : Option String
  published : Option String
  author : Option String
deriving DecidableEq

/-- The defaulted article stub built inside `parse_rss_feed`. -/
structure RssEntry where
  title : String
  summary : String
  link : String
  published : String
  author : String
deriving DecidableEq

/-- `NewsParser.parse_rss_feed`: up to `limit` entries in feed order,
missing fields defaulting to `''`; a parse failure yields `[]`. -/
def parse_rss_feed (feedOut : Except String (List RawEntry)) (limit : Nat) :
    List RssEntry :=
  match feedOut with
  | .error _ => []
  | .ok entries =>
    (entries.take limit).map fun e =>
      { title := e.title.getD ""
        summary := e.summary.getD ""
        link := e.link.getD ""
        published := e.published.getD ""
        author := e.author.getD "" }

/-! ## Summarization Client (`AINewsSummarizer`)

The OpenAI chat-completion endpoint is an oracle: a function from the
system message and the user prompt to either a raised API error or the
reply text `response.choices[0].message.content`.  (Model name and
sampling parameters do not influence the embedded behaviour.) -/

def LLM := String → String → Except String String

def summarizerSystem : String :=
  "You are a professional news analyst and summarizer. Provide accurate, objective, and well-structured summaries."
def keyPointsSystem : String :=
  "You are a news analyst. Extract key factual points from news articles."
def sentimentSystem : String :=
  "You are a sentiment analysis expert. Analyze news articles objectively."
def insightsSystem : String :=
  "You are a business analyst. Provide strategic insights from news articles."

def concisePrompt (content : String) (maxLength : Nat) : String :=
  "Please provide a concise summary of the following news article in approximately " ++
  toString maxLength ++
  " words. Focus on the main facts, key points, and essential information.\n\nArticle content:\n" ++
  content ++ "\n\nSummary:"

def detailedPrompt (content : String) (maxLength : Nat) : String :=
  "Please provide a detailed summary of the following news article in approximately " ++
  toString maxLength ++
  " words. Include main facts, context, key quotes, and implications.\n\nArticle content:\n" ++
  content ++ "\n\nSummary:"

def bulletPrompt (content : String) : String :=
  "Please provide a summary of the following news article in bullet point format. Focus on main facts, key points, and important details.\n\nArticle content:\n" ++
  content ++ "\n\nSummary:"

def executivePrompt (content : String) (maxLength : Nat) : String :=
  "Please provide an executive summary of the following news article in approximately " ++
  toString maxLength ++
  " words. Focus on business implications, key decisions, and strategic insights.\n\nArticle content:\n" ++
  content ++ "\n\nSummary:"

def styleErrMsg : String :=
  "Style must be \x27concise\x27, \x27detailed\x27, \x27bullet_points\x27, or \x27executive\x27"

/-- The style dispatch of `generate_summary`: one of the four fixed
prompts, or the `ValueError` of the final `else`. -/
def stylePrompt (style content : String) (maxLength : Nat) : Except String String :=
  if style = "concise" then .ok (concisePrompt content maxLength)
  else if style = "detailed" then .ok (detailedPrompt content maxLength)
  else if style = "bullet_points" then .ok (bulletPrompt content)
  else if style = "executive" then .ok (executivePrompt content maxLength)
  else .error styleErrMsg

/-- `AINewsSummarizer.generate_summary`: build the style prompt (the
unknown-style `ValueError` is raised before the API call), call the
LLM, strip the reply; any exception in the try-body is re-raised as
`Exception("Summary generation failed: " + str(e))`. -/
def generate_summary (llm : LLM) (content style : String) (maxLength : Nat) :
    Except String String :=
  let body : Except String String :=
    match stylePrompt style content maxLength with
    | .error e => .error e
    | .ok prompt =>
      match llm summarizerSystem prompt with
      | .error e => .error e
      | .ok reply => .ok (pyStrip reply)
  match body with
  | .ok s => .ok s
  | .error e => .error ("Summary generation failed: " ++ e)

/-- The character class of `re.sub(r'^[\d•\-*\.\s]+', '', line)`. -/
def markerClass (c : Char) : Bool :=
  c.isDigit || c = '•' || c = '-' || c = '*' || c = '.' || isWS c

/-- Strip the leading enumeration marker and strip whitespace:
`re.sub(r'^[\d•\-*\.\s]+', '', line).strip()`. -/
def cleanMarker (l : List Char) : List Char :=
  stripWS (l.dropWhile markerClass)

/-- Does a (stripped) line start a key point: non-empty, and first
character a digit, `•`, `-` or `*`. -/
def lineKept : List Char → Bool
  | [] => false
  | c :: _ => c.isDigit || c = '•' || c = '-' || c = '*'

/-- The line-based pass shared by `generate_key_points` and
`generate_insights`: strip each line, keep marker lines, strip their
markers, drop the ones that end up empty. -/
def keyPointLines : List (List Char) → List (List Char)
  | [] => []
  | l :: ls =>
    let line := stripWS l
    if lineKept line then
      (let cp := cleanMarker line
       if cp = [] then keyPointLines ls else cp :: keyPointLines ls)
    else keyPointLines ls

def isPunctSent (c : Char) : Bool := c = '.' || c = '!' || c = '?'

/-- `re.split(r'[.!?]+', text)`: split at maximal runs of sentence
punctuation (fuel = input length; each step consumes a character). -/
def splitPunctF : Nat → List Char → List Char → List (List Char)
  | _, [], acc => [acc.reverse]
  | 0, rest, acc => [acc.reverse ++ rest]
  | f + 1, c :: cs, acc =>
    if isPunctSent c then
      acc.reverse :: splitPunctF f (cs.dropWhile isPunctSent) []
    else splitPunctF f cs (c :: acc)

def splitPunct (s : List Char) : List (List Char) := splitPunctF s.length s []

/-- The response parsing of `generate_key_points`: line-based pass,
sentence-splitting fallback when it yields fewer than `num_points`
items, final truncation `points[:num_points]`. -/
def parseKeyPointsText (text : List Char) (num_points : Nat) : List (List Char) :=
  let points := keyPointLines (splitLinesPy text)
  let points :=
    if points.length < num_points then
      (((splitPunct text).map stripWS).filter (fun s => 20 < s.length)).take num_points
    else points
  points.take num_points

def keyPointsPrompt (content : String) (num_points : Nat) : String :=
  "Please extract " ++ toString num_points ++
  " key points from the following news article. Each point should be a concise, factual statement.\n\nArticle content:\n" ++
  content ++ "\n\nKey points:"

/-- `AINewsSummarizer.generate_key_points`: call the LLM, strip the
reply, parse; any exception degrades to `[]`. -/
def generate_key_points (llm : LLM) (content : String) (num_points : Nat) :
    List String :=
  match llm keyPointsSystem (keyPointsPrompt content num_points) with
  | .error _ => []
  | .ok reply =>
    (parseKeyPointsText (stripWS reply.data) num_points).map fun l => ⟨l⟩

structure Sentiment where
  sentiment : String
  confidence : String
  explanation : String
deriving DecidableEq

def sentimentPrompt (content : String) : String :=
  "Please analyze the sentiment of the following news article. Provide:\n1. Overall sentiment (positive, negative, neutral, or mixed)\n2. Confidence level (high, medium, or low)\n3. Brief explanation\n\nArticle content:\n" ++
  content ++ "\n\nAnalysis:"

/-- `AINewsSummarizer.analyze_sentiment`: case-insensitive substring
search over the reply; any exception degrades to the
neutral/low/failed default. -/
def analyze_sentiment (llm : LLM) (content : String) : Sentiment :=
  match llm sentimentSystem (sentimentPrompt content) with
  | .error _ =>
    { sentiment := "neutral", confidence := "low", explanation := "Sentiment analysis failed" }
  | .ok reply =>
    let analysis_text := pyStrip reply
    let lower := pyLower analysis_text
    let sentiment :=
      if containsS "positive" lower then "positive"
      else if containsS "negative" lower then "negative"
      else if containsS "mixed" lower then "mixed"
      else "neutral"
    let confidence :=
      if containsS "high" lower then "high"
      else if containsS "low" lower then "low"
      else "medium"
    { sentiment := sentiment, confidence := confidence, explanation := analysis_text }

def insightsPrompt (content : String) : String :=
  "Please provide 3-5 key insights or implications from the following news article. Focus on:\n- Business implications\n- Market impact\n- Strategic considerations\n- Future trends\n\nArticle content:\n" ++
  content ++ "\n\nInsights:"

/-- `AINewsSummarizer.generate_insights`: the same line-based parse
loop as `generate_key_points` (no sentence fallback), truncated to 5;
any exception degrades to `[]`. -/
def generate_insights (llm : LLM) (content : String) : List String :=
  match llm insightsSystem (insightsPrompt content) with
  | .error _ => []
  | .ok reply =>
    ((keyPointLines (splitLinesPy (stripWS reply.data))).take 5).map fun l => ⟨l⟩

/-- The `original_article` value of a summary record: either the full
parsed article of `parse_news_url` or a bare RSS stub. -/
inductive Orig where
  | full (r : FinalRecord)
  | rss (e : RssEntry)
deriving DecidableEq

/-- A comprehensive summary record (`generated_at`, a wall-clock
timestamp, is outside the embedding). -/
structure SummaryData where
  original_article : Orig
  summary : String
  key_points : List String
  sentiment : Sentiment
  insights : List String
  summary_style : String
  rss_data : Option RssEntry
deriving DecidableEq

/-- `AINewsSummarizer.summarize_article`: validate content length,
generate the summary (fatal), then the three independently degradable
enrichments; any exception in the try-body is re-raised as
`Exception("Article summarization failed: " + str(e))`. -/
def summarize_article (llm : LLM) (article_data : FinalRecord) (style : String) :
    Except String SummaryData :=
  let body : Except String SummaryData :=
    let content := contentOf article_data.base
    if content = "" ∨ content.length < 50 then
      .error "Article content is too short or empty"
    else
      match generate_summary llm content style 200 with
      | .error e => .error e
      | .ok summary =>
        .ok
          { original_article := .full article_data
            summary := summary
            key_points := generate_key_points llm content 5
            sentiment := analyze_sentiment llm content
            insights := generate_insights llm content
            summary_style := style
            rss_data := none }
  match body with
  | .ok r => .ok r
  | .error e => .error ("Article summarization failed: " ++ e)

/-! ## Application Orchestrator (`NewsSummarizerApp`) -/

/-- The per-URL external world: the newspaper3k outcome and the raw
HTTP fetch outcome for that URL. -/
structure ExtractInput where
  np : NPOutcome
  fetch : Fetch

/-- `NewsSummarizerApp.process_single_url`: parse, validate that some
content was extracted (`ValueError` otherwise), summarize; the
`except ... raise` re-raises every exception unchanged. -/
def process_single_url (llm : LLM) (inp : ExtractInput) (url style : String) :
    Except String SummaryData :=
  match parse_news_url inp.np inp.fetch url with
  | .error e => .error e
  | .ok article_data =>
    if contentOf article_data.base = "" then
      .error "Failed to extract article content"
    else summarize_article llm article_data style

/-- One element of the `process_multiple_urls` result: a summary, or
the error dictionary `{'error': ..., 'url': ..., 'status': 'failed'}`. -/
inductive BatchEntry where
  | success (r : SummaryData)
  | failed (error url status : String)
deriving DecidableEq

/-- `NewsSummarizerApp.process_multiple_urls`: one appended entry per
URL in order; a failure is caught and appended as the tagged error
dictionary and the loop continues. -/
def process_multiple_urls (llm : LLM) (env : String → ExtractInput)
    (urls : List String) (style : String) : List BatchEntry :=
  urls.map fun url =>
    match process_single_url llm (env url) url style with
    | .ok r => .success r
    | .error e => .failed e url "failed"

/-- The per-entry try-body of the `process_rss_feed` loop.  `none`
means the entry contributes nothing to the results: either its `link`
is empty (the `if` is skipped) or an exception was caught by the
per-item `except`, which just logs and `continue`s. -/
def processRssItem (llm : LLM) (env : String → ExtractInput) (style : String)
    (article : RssEntry) : Option SummaryData :=
  if article.link ≠ "" then
    match parse_news_url (env article.link).np (env article.link).fetch article.link with
    | .error _ => none
    | .ok full_article =>
      if contentOf full_article.base ≠ "" then
        match summarize_article llm full_article style with
        | .ok sd => some { sd with rss_data := some article }
        | .error _ => none
      else
        some
          { original_article := .rss article
            summary := article.summary
            key_points := []
            sentiment := { sentiment := "neutral", confidence := "low", explanation := "Limited data" }
            insights := []
            summary_style := style
            rss_data := some article }
  else none

/-- `NewsSummarizerApp.process_rss_feed`: parse the feed, raise
`ValueError` when it yields no articles (re-raised by the outer
`except`), then run the per-entry loop. -/
def process_rss_feed (llm : LLM) (env : String → ExtractInput)
    (feedOut : Except String (List RawEntry)) (style : String) (limit : Nat) :
    Except String (List SummaryData) :=
  let articles := parse_rss_feed feedOut limit
  if articles = [] then .error "No articles found in RSS feed"
  else .ok (articles.filterMap (processRssItem llm env style))

/-! ## Claim-side characterizations

Transparent restatements of what the claims say, to be proved equal to
the code-side translations above. -/

/-- The line-based pass, stated as the claims state it: split into
lines, keep exactly the lines whose first non-space character is a
digit, bullet, dash or asterisk, strip the marker (dropping a line
whose content is nothing but marker characters), preserving order. -/
def linePassSpec (text : List Char) : List (List Char) :=
  ((splitLinesPy text).map stripWS).filterMap fun line =>
    if lineKept line then
      (let cp := cleanMarker line
       if cp = [] then none else some cp)
    else none

/-- The sentence-splitting fallback as the claims state it: split on
`. ! ?`, keep the stripped sentences longer than 20 characters. -/
def sentencePassSpec (text : List Char) : List (List Char) :=
  ((splitPunct text).map stripWS).filter fun s => 20 < s.length

/-- No boilerplate phrase occurs (case-insensitively) in `s`. -/
def noBoilerB (s : List Char) : Bool :=
  !containsB shareL (lowerL s) && !containsB followL (lowerL s) &&
  !containsB subscribeL (lowerL s) && !containsB newsletterL (lowerL s)

/-- Every whitespace character of `s` is a plain space. -/
def allSpacesB : List Char → Bool
  | [] => true
  | c :: cs => (!isWS c || c = ' ') && allSpacesB cs

/-- No two adjacent spaces in `s`. -/
def noDblSpaceB : List Char → Bool
  | [] => true
  | [_] => true
  | a :: b :: cs => !(a = ' ' && b = ' ') && noDblSpaceB (b :: cs)

/-- The head of `l`, when it exists, is not whitespace. -/
def headNotWS : List Char → Bool
  | [] => true
  | c :: _ => !isWS c

/-! ## Concrete worlds used by witnesses and counterexamples -/

/-- A newspaper3k article whose content is comfortably over the
100-character threshold. -/
def goodContent : String :=
  "Regulators approved the merger on Tuesday after a lengthy review, sending shares of both companies sharply higher in afternoon trading."

def goodNP : NPArticle :=
  { title := some "Merger approved", text := some goodContent, summary := some "Approved.",
    authors := [], publish_date := none, keywords := [] }

def wit6urls : List String :=
  ["https://site.one/a", "https://site.two/b", "https://site.three/c"]

/-- URL 2 fails both extractors; the others succeed via newspaper3k. -/
def wit6env : String → ExtractInput := fun url =>
  if url = "https://site.two/b" then
    { np := Except.error "download failed", fetch := Fetch.netErr "timeout" }
  else { np := Except.ok goodNP, fetch := Fetch.ok 200 [] }

def wit6llm : LLM := fun _ _ =>
  .ok "Good summary reply. This sentence is definitely longer than twenty characters."

def c5content1 : String :=
  "FAILME breaking news story body text aaaaaaaaaa bbbbbbbbbb cccccccccc dddddddddd eeeeeeeeee ffffffffff gggggggggg"

def c5content2 : String :=
  "Second breaking news story body text aaaaaaaaaa bbbbbbbbbb cccccccccc dddddddddd eeeeeeeeee ffffffffff gggggggggg"

def c5np1 : NPArticle :=
  { title := some "T1", text := some c5content1, summary := some "S1",
    authors := [], publish_date := none, keywords := [] }

def c5np2 : NPArticle :=
  { title := some "T2", text := some c5content2, summary := some "S2",
    authors := [], publish_date := none, keywords := [] }

def c5reply : String :=
  "Positive outlook overall. This is a key point sentence definitely long enough."

/-- The LLM oracle fails exactly for the summary request about the
first article (whose content carries the marker), and answers
everything else. -/
def c5llm : LLM := fun sys user =>
  if sys = summarizerSystem ∧ containsS "FAILME" user then .error "API error"
  else .ok c5reply

def c5raw1 : RawEntry :=
  { title := some "One", summary := some "rss one", link := some "http://n.example/1",
    published := none, author := none }

def c5raw2 : RawEntry :=
  { title := some "Two", summary := some "rss two", link := some "http://n.example/2",
    published := none, author := none }

def c5feed : Except String (List RawEntry) := .ok [c5raw1, c5raw2]

def c5env : String → ExtractInput := fun url =>
  if url = "http://n.example/1" then { np := Except.ok c5np1, fetch := Fetch.ok 200 [] }
  else { np := Except.ok c5np2, fetch := Fetch.ok 200 [] }

def c5rss1 : RssEntry :=
  { title := "One", summary := "rss one", link := "http://n.example/1",
    published := "", author := "" }

/-- What `parse_news_url` yields for the first RSS entry's link. -/
def c5fr1 : FinalRecord :=
  { base := some
      { title := "T1", content := c5content1, summary := "S1", author := "",
        date := "", keywords := "", method := "newspaper3k" }
    url := "http://n.example/1", website_type := "generic" }

def c7raw : RawEntry :=
  { title := some "Item", summary := some "RSS summary text",
    link := some "http://feed.example/a", published := none, author := none }

def c7feed : Except String (List RawEntry) := .ok [c7raw]

/-- Both extractors fail for the entry's link, so its re-fetch yields
no usable content. -/
def c7env : String → ExtractInput := fun _ =>
  { np := Except.error "np fail", fetch := Fetch.netErr "down" }

def c7rss : RssEntry :=
  { title := "Item", summary := "RSS summary text", link := "http://feed.example/a",
    published := "", author := "" }

def c7fr : FinalRecord :=
  { base := none, url := "http://feed.example/a", website_type := "generic" }

def c7llm : LLM := fun _ _ => .ok "irrelevant"

/-- A re-fetch outcome of non-empty content below the 50-character
summarization threshold (29 characters). -/
def c7shortContent : String := "Short body under fifty chars."

def c7npShort : NPArticle :=
  { title := some "S", text := some c7shortContent, summary := some "",
    authors := [], publish_date := none, keywords := [] }

/-- For every link: newspaper3k yields the short article; the raw fetch
succeeds with an empty document, so the selector fallback extracts
nothing and the short newspaper3k result is kept. -/
def c7envShort : String → ExtractInput := fun _ =>
  { np := Except.ok c7npShort, fetch := Fetch.ok 200 [] }

/-- What `parse_news_url` yields for the entry's link in that world. -/
def c7frShort : FinalRecord :=
  { base := some
      { title := "S", content := c7shortContent, summary := "", author := "",
        date := "", keywords := "", method := "newspaper3k" }
    url := "http://feed.example/a", website_type := "generic" }

/-! # Theorems and supporting lemmas -/

@[simp] lemma lowerL_nil : lowerL [] = [] := rfl

@[simp] lemma lowerL_cons (c : Char) (cs : List Char) :
    lowerL (c :: cs) = c.toLower :: lowerL cs := rfl

lemma lowerL_append (a b : List Char) : lowerL (a ++ b) = lowerL a ++ lowerL b :=
  List.map_append ..

lemma hasPfxB_append (p l t : List Char) (h : hasPfxB p l = true) :
    hasPfxB p (l ++ t) = true := by
  induction p generalizing l with
  | nil => rfl
  | cons x ps ih =>
    cases l with
    | nil => simp [hasPfxB] at h
    | cons c cs =>
      simp [hasPfxB] at h ⊢
      exact ⟨h.1, ih cs h.2⟩

lemma hasPfxB_of_append (p q s : List Char) (h : hasPfxB (p ++ q) s = true) :
    hasPfxB p s = true := by
  induction p generalizing s with
  | nil => rfl
  | cons x ps ih =>
    cases s with
    | nil => simp [hasPfxB] at h
    | cons c cs =>
      simp [hasPfxB] at h ⊢
      exact ⟨h.1, ih cs h.2⟩

lemma containsB_of_hasPfxB (p s : List Char) (h : hasPfxB p s = true) :
    containsB p s = true := by
  cases s with
  | nil => simpa [containsB] using h
  | cons c cs => simp [containsB, h]

lemma containsB_append_right (p a b : List Char) (h : containsB p b = true) :
    containsB p (a ++ b) = true := by
  induction a with
  | nil => simpa using h
  | cons c cs ih => simp [containsB, ih]

lemma containsB_append_left (p a b : List Char) (h : containsB p a = true) :
    containsB p (a ++ b) = true := by
  induction a with
  | nil =>
    cases p with
    | nil => cases b <;> simp [containsB, hasPfxB]
    | cons x ps => simp [containsB, hasPfxB] at h
  | cons c cs ih =>
    simp [containsB] at h ⊢
    rcases h with h | h
    · exact Or.inl (hasPfxB_append _ _ _ h)
    · exact Or.inr (ih h)

lemma containsB_mid_false (p a t b : List Char)
    (h : containsB p ((a ++ t) ++ b) = false) : containsB p t = false := by
  cases hc : containsB p t with
  | false => rfl
  | true =>
    rw [containsB_append_left p (a ++ t) b (containsB_append_right p a t hc)] at h
    cases h

lemma containsB_cons_false (p : List Char) (c : Char) (cs : List Char)
    (h : containsB p (c :: cs) = false) :
    hasPfxB p (c :: cs) = false ∧ containsB p cs = false := by
  simpa [containsB] using h

/-! ## Claim C10: site classification -/

lemma findNetloc_scheme (l : List Char) :
    findNetloc ("https://".data ++ l) = takeNetloc l := rfl

lemma takeNetloc_clean (h r : List Char) (hc : h.all (fun c => !stopChar c) = true) :
    takeNetloc (h ++ r) = h ++ takeNetloc r := by
  induction h with
  | nil => rfl
  | cons c cs ih =>
    simp only [List.all_cons, Bool.and_eq_true, Bool.not_eq_true'] at hc
    simp [takeNetloc, hc.1, ih hc.2]

lemma netloc_abs (host p q : String)
    (hc : host.data.all (fun c => !stopChar c) = true) :
    netloc ("https://" ++ host ++ "/" ++ p ++ "?" ++ q) = host := by
  unfold netloc
  have hdata : ("https://" ++ host ++ "/" ++ p ++ "?" ++ q).data
      = "https://".data ++ (host.data ++ ('/' :: (p.data ++ '?' :: q.data))) := by
    simp [String.data_append]
  rw [hdata, findNetloc_scheme,
    takeNetloc_clean host.data ('/' :: (p.data ++ '?' :: q.data)) hc]
  show String.mk (host.data ++ takeNetloc ('/' :: (p.data ++ '?' :: q.data))) = host
  have : takeNetloc ('/' :: (p.data ++ '?' :: q.data)) = [] := rfl
  rw [this, List.append_nil]

/-- Claim C10: site classification examines only the URL's lower-cased
host (netloc), never the path or query — for a well-formed absolute URL
`https://host/path?query` with a host free of `/`, `?`, `#`, the
classification does not depend on the path or query — and uses a fixed
precedence when the host contains more than one brand token: a host
containing `"bbc"` classifies as `"bbc"` whatever else it contains, and
a host containing `"cnn"` but not `"bbc"` classifies as `"cnn"`. -/
theorem C10_host_only_precedence :
    (∀ host p1 q1 p2 q2 : String, host.data.all (fun c => !stopChar c) = true →
      detect_website_type ("https://" ++ host ++ "/" ++ p1 ++ "?" ++ q1)
        = detect_website_type ("https://" ++ host ++ "/" ++ p2 ++ "?" ++ q2))
    ∧ (∀ url : String, containsB bbcPat (lowerL (netloc url).data) = true →
        detect_website_type url = "bbc")
    ∧ (∀ url : String, containsB cnnPat (lowerL (netloc url).data) = true →
        containsB bbcPat (lowerL (netloc url).data) = false →
        detect_website_type url = "cnn") := by
  refine ⟨?_, ?_, ?_⟩
  · intro host p1 q1 p2 q2 hc
    unfold detect_website_type
    rw [netloc_abs host p1 q1 hc, netloc_abs host p2 q2 hc]
  · intro url h
    simp only [detect_website_type]
    rw [h]
    rfl
  · intro url hc hb
    simp only [detect_website_type]
    rw [hb, hc]
    rfl

/-- Witness for C10 at concrete URLs. -/
theorem C10_host_only_precedence_witness :
    detect_website_type ("https://" ++ "www.bbc.com" ++ "/" ++ "news" ++ "?" ++ "id=1")
      = detect_website_type ("https://" ++ "www.bbc.com" ++ "/" ++ "sport" ++ "?" ++ "ref=2")
    ∧ detect_website_type "https://www.cnnbbc.com/story" = "bbc"
    ∧ detect_website_type "https://www.cnnreuters.com/story" = "cnn" :=
  ⟨C10_host_only_precedence.1 "www.bbc.com" "news" "id=1" "sport" "ref=2" (by decide),
   C10_host_only_precedence.2.1 "https://www.cnnbbc.com/story" (by decide),
   C10_host_only_precedence.2.2 "https://www.cnnreuters.com/story" (by decide) (by decide)⟩

/-! ## Claim C8: unrecognized style is a validation error, no LLM call -/

/-- Claim C8: for every style outside the fixed four, `generate_summary`
fails with the validation error (re-raised by the method's `except` as
`"Summary generation failed: Style must be ..."`) and its result does
not depend on the LLM oracle at all — no network call is made, and
there is no silent default style. -/
theorem C8_unknown_style (llm llm2 : LLM) (content style : String) (maxLength : Nat)
    (h1 : style ≠ "concise") (h2 : style ≠ "detailed")
    (h3 : style ≠ "bullet_points") (h4 : style ≠ "executive") :
    generate_summary llm content style maxLength
        = .error ("Summary generation failed: " ++ styleErrMsg)
    ∧ generate_summary llm content style maxLength
        = generate_summary llm2 content style maxLength := by
  unfold generate_summary stylePrompt
  rw [if_neg h1, if_neg h2, if_neg h3, if_neg h4]
  exact ⟨rfl, rfl⟩

/-- Witness for C8 at the style `"poetic"` and two LLM oracles that
would answer differently if consulted. -/
theorem C8_unknown_style_witness :
    generate_summary (fun _ _ => .ok "reply") "some article content" "poetic" 200
        = .error ("Summary generation failed: " ++ styleErrMsg)
    ∧ generate_summary (fun _ _ => .ok "reply") "some article content" "poetic" 200
        = generate_summary (fun _ _ => .error "network down") "some article content" "poetic" 200 :=
  C8_unknown_style (fun _ _ => .ok "reply") (fun _ _ => .error "network down")
    "some article content" "poetic" 200 (by decide) (by decide) (by decide) (by decide)

/-! ## Claim C3: non-success HTTP status in the selector-based extractor -/

/-- Counterexample to claim C3: on a 404 response the selector-based
extractor does NOT propagate the error to its caller — the `except`
inside `extract_with_beautifulsoup` catches the `HTTPError` raised by
`raise_for_status()` and the caller receives the ordinary value `{}`
(modelled `Except.ok none`), not a raised exception. -/
theorem C3_counterexample :
    extract_with_beautifulsoup (Fetch.ok 404 []) "generic" = Except.ok none := rfl

/-- Claim C3 as amended: an error HTTP status (4xx/5xx, the statuses
`raise_for_status` raises for) is fatal to the extraction attempt — the
try-body aborts with the `HTTPError` and no fields are extracted — but
the error is swallowed inside `extract_with_beautifulsoup`, which
returns the empty result `{}` to its caller (the same swallow-and-
degrade behaviour as the orchestrator), not a propagated exception. -/
theorem C3_amended (status : Nat) (soup : Soup) (wt : String)
    (h1 : 400 ≤ status) (h2 : status < 600) :
    bsTryBody (Fetch.ok status soup) wt = .error "HTTPError"
    ∧ extract_with_beautifulsoup (Fetch.ok status soup) wt = .ok none := by
  have hr : raise_for_status status = Except.error "HTTPError" := by
    unfold raise_for_status
    rw [if_pos ⟨h1, h2⟩]
  have hb : bsTryBody (Fetch.ok status soup) wt = .error "HTTPError" := by
    simp only [bsTryBody, hr]
  refine ⟨hb, ?_⟩
  unfold extract_with_beautifulsoup
  rw [hb]

/-- Witness for C3's amended claim at a concrete 404 response. -/
theorem C3_amended_witness :
    bsTryBody (Fetch.ok 404 [("h1", ["title text"])]) "bbc" = .error "HTTPError"
    ∧ extract_with_beautifulsoup (Fetch.ok 404 [("h1", ["title text"])]) "bbc" = .ok none :=
  C3_amended 404 [("h1", ["title text"])] "bbc" (by decide) (by decide)

/-! ## Claim C4: the orchestrator never propagates extractor failures -/

lemma extract_bs_total (f : Fetch) (wt : String) :
    ∃ o, extract_with_beautifulsoup f wt = .ok o := by
  unfold extract_with_beautifulsoup
  cases bsTryBody f wt <;> exact ⟨_, rfl⟩

/-- Claim C4: `parse_news_url` never propagates an extractor failure:
a raised newspaper3k exception yields `{}`, a raised network error in
the selector-based extractor yields `{}` (`Except.ok none`), and for
every combination of extractor outcomes the caller receives some record
with `url` and `website_type` populated (content possibly empty). -/
theorem C4_never_propagates (np : NPOutcome) (fetch : Fetch) (url : String) :
    (∀ e, extract_with_newspaper (Except.error e) = none)
    ∧ (∀ msg wt, extract_with_beautifulsoup (Fetch.netErr msg) wt = Except.ok none)
    ∧ ∃ rec, parse_news_url np fetch url = .ok rec
        ∧ rec.url = url ∧ rec.website_type = detect_website_type url := by
  refine ⟨fun e => rfl, fun msg wt => rfl, ?_⟩
  unfold parse_news_url
  by_cases h : selector_invoked np = true
  · obtain ⟨o, ho⟩ := extract_bs_total fetch (detect_website_type url)
    simp only [h, if_true, ho]
    exact ⟨_, rfl, rfl, rfl⟩
  · simp only [Bool.not_eq_true] at h
    simp only [h, Bool.false_eq_true, if_false]
    exact ⟨_, rfl, rfl, rfl⟩

/-! ## Claim C1: the orchestrator's merge rule -/

/-- Claim C1: the selector-based extractor is invoked iff the generic
result is absent (`{}`) or its content is shorter than 100 characters;
when it is not invoked the final record carries the generic result
exactly (and the fetch outcome is irrelevant); when it is invoked the
final record carries the selector-based dictionary iff that dictionary
is non-empty and its content is strictly longer than the generic
content, and otherwise the generic result exactly — even when shorter
than 100 characters. -/
theorem C1_merge_rule (np : NPOutcome) (fetch fetch2 : Fetch) (url : String) :
    (selector_invoked np = true ↔
      (extract_with_newspaper np = none
        ∨ (contentOf (extract_with_newspaper np)).length < 100))
    ∧ (selector_invoked np = false →
        parse_news_url np fetch url
            = .ok { base := extract_with_newspaper np, url := url,
                    website_type := detect_website_type url }
        ∧ parse_news_url np fetch url = parse_news_url np fetch2 url)
    ∧ (∀ bs, selector_invoked np = true →
        extract_with_beautifulsoup fetch (detect_website_type url) = .ok bs →
        parse_news_url np fetch url
            = .ok { base :=
                      if bs.isSome
                          ∧ (contentOf (extract_with_newspaper np)).length
                            < (contentOf bs).length
                      then bs else extract_with_newspaper np,
                    url := url, website_type := detect_website_type url }) := by
  refine ⟨?_, ?_, ?_⟩
  · unfold selector_invoked
    simp [Option.isNone_iff_eq_none]
  · intro h
    have hp : parse_news_url np fetch url
        = .ok { base := extract_with_newspaper np, url := url,
                website_type := detect_website_type url } := by
      unfold parse_news_url
      simp only [h, Bool.false_eq_true, if_false]
    have hp2 : parse_news_url np fetch2 url
        = .ok { base := extract_with_newspaper np, url := url,
                website_type := detect_website_type url } := by
      unfold parse_news_url
      simp only [h, Bool.false_eq_true, if_false]
    exact ⟨hp, hp.trans hp2.symm⟩
  · intro bs h hbs
    unfold parse_news_url
    simp only [h, if_true, hbs]

/-- Witness for C1: the generic extractor fails, the selector-based
extractor succeeds with non-trivial content, a second fetch outcome for
the not-invoked conjunct. -/
theorem C1_merge_rule_witness :
    (selector_invoked (Except.error "download failed") = true ↔
      (extract_with_newspaper (Except.error "download failed") = none
        ∨ (contentOf (extract_with_newspaper (Except.error "download failed"))).length < 100))
    ∧ (selector_invoked (Except.error "download failed") = false →
        parse_news_url (Except.error "download failed") (Fetch.ok 200 [("article", ["body text"])]) "https://www.bbc.com/news"
            = .ok { base := extract_with_newspaper (Except.error "download failed"),
                    url := "https://www.bbc.com/news",
                    website_type := detect_website_type "https://www.bbc.com/news" }
        ∧ parse_news_url (Except.error "download failed") (Fetch.ok 200 [("article", ["body text"])]) "https://www.bbc.com/news"
            = parse_news_url (Except.error "download failed") (Fetch.netErr "timeout") "https://www.bbc.com/news")
    ∧ (∀ bs, selector_invoked (Except.error "download failed") = true →
        extract_with_beautifulsoup (Fetch.ok 200 [("article", ["body text"])])
            (detect_website_type "https://www.bbc.com/news") = .ok bs →
        parse_news_url (Except.error "download failed") (Fetch.ok 200 [("article", ["body text"])]) "https://www.bbc.com/news"
            = .ok { base :=
                      if bs.isSome
                          ∧ (contentOf (extract_with_newspaper (Except.error "download failed"))).length
                            < (contentOf bs).length
                      then bs else extract_with_newspaper (Except.error "download failed"),
                    url := "https://www.bbc.com/news",
                    website_type := detect_website_type "https://www.bbc.com/news" }) :=
  C1_merge_rule (Except.error "download failed")
    (Fetch.ok 200 [("article", ["body text"])]) (Fetch.netErr "timeout")
    "https://www.bbc.com/news"

/-! ## Claim C6: multi-URL batches -/

lemma map_get?_eq {α β : Type} (f : α → β) :
    ∀ (l : List α) (n : Nat), (l.map f).get? n = (l.get? n).map f := by
  intro l
  induction l with
  | nil => intro n; cases n <;> rfl
  | cons a as ih => intro n; cases n with | zero => rfl | succ m => exact ih m

/-- Claim C6: `process_multiple_urls` yields exactly one entry per
input URL in order; the entry at position `i` is the summary record
when that URL succeeds and the tagged error dictionary
`{error, url, status: "failed"}` preserving the originating URL when it
fails, so the batch never aborts. -/
theorem C6_batch_per_url (llm : LLM) (env : String → ExtractInput) (urls : List String)
    (style : String) (i : Nat) (u : String) (h : urls.get? i = some u) :
    (process_multiple_urls llm env urls style).length = urls.length
    ∧ (process_multiple_urls llm env urls style).get? i
        = some (match process_single_url llm (env u) u style with
                | .ok r => BatchEntry.success r
                | .error e => BatchEntry.failed e u "failed") := by
  constructor
  · exact List.length_map ..
  · unfold process_multiple_urls
    rw [map_get?_eq, h]
    rfl

/-- Witness for C6: three URLs, the second fails extraction. -/
theorem C6_batch_per_url_witness :
    (wit6urls.get? 1 = some "https://site.two/b")
    ∧ ((process_multiple_urls wit6llm wit6env wit6urls "concise").length = wit6urls.length
      ∧ (process_multiple_urls wit6llm wit6env wit6urls "concise").get? 1
          = some (match process_single_url wit6llm (wit6env "https://site.two/b")
                        "https://site.two/b" "concise" with
                  | .ok r => BatchEntry.success r
                  | .error e => BatchEntry.failed e "https://site.two/b" "failed")) :=
  ⟨by decide,
   C6_batch_per_url wit6llm wit6env wit6urls "concise" 1 "https://site.two/b" (by decide)⟩

/-! ## Claim C7: RSS entries and the degraded RSS-summary fallback -/

/-- Counterexample to claim C7: an entry whose `link` re-fetch yields
29 characters of content — non-empty but below the 50-character
threshold, hence no usable content for summarization — is NOT given the
degraded RSS-summary record: `full_article.get('content')` is truthy,
so the code takes the summarize path, `summarize_article` raises
"Article content is too short or empty", and the per-item `except`
drops the entry; the feed result is empty. -/
theorem C7_counterexample :
    parse_news_url (c7envShort "http://feed.example/a").np
        (c7envShort "http://feed.example/a").fetch "http://feed.example/a" = .ok c7frShort
    ∧ (contentOf c7frShort.base ≠ "" ∧ (contentOf c7frShort.base).length < 50)
    ∧ processRssItem c7llm c7envShort "concise" c7rss = none
    ∧ process_rss_feed c7llm c7envShort c7feed "concise" 5 = .ok [] :=
  ⟨rfl, ⟨by decide, by decide⟩, rfl, rfl⟩

/-- Claim C7 as amended: the degraded fallback triggers exactly on
*empty* re-fetched content, not on every unusable re-fetch.  An entry
whose `link` re-fetch yields empty content contributes a degraded
record carrying the entry's own RSS-provided summary verbatim, with
empty key points and insights and neutral/low-confidence sentiment,
and that record is in the batch result; but an entry whose re-fetch
yields non-empty content shorter than 50 characters (unusable for
summarization) is silently dropped — summarization raises and the
per-item `except` discards the entry with no degraded record. -/
theorem C7_amended (llm : LLM) (env : String → ExtractInput)
    (feedOut : Except String (List RawEntry)) (style : String) (limit : Nat)
    (art : RssEntry) (fr : FinalRecord) :
    (art ∈ parse_rss_feed feedOut limit → art.link ≠ "" →
      parse_news_url (env art.link).np (env art.link).fetch art.link = .ok fr →
      contentOf fr.base = "" →
      processRssItem llm env style art
          = some { original_article := .rss art, summary := art.summary, key_points := [],
                   sentiment := { sentiment := "neutral", confidence := "low",
                                  explanation := "Limited data" },
                   insights := [], summary_style := style, rss_data := some art }
      ∧ ∃ out, process_rss_feed llm env feedOut style limit = .ok out
          ∧ ({ original_article := Orig.rss art, summary := art.summary, key_points := [],
               sentiment := { sentiment := "neutral", confidence := "low",
                              explanation := "Limited data" },
               insights := [], summary_style := style,
               rss_data := some art } : SummaryData) ∈ out)
    ∧ (art.link ≠ "" →
      parse_news_url (env art.link).np (env art.link).fetch art.link = .ok fr →
      contentOf fr.base ≠ "" → (contentOf fr.base).length < 50 →
      processRssItem llm env style art = none) := by
  constructor
  · intro h1 h2 h3 h4
    have hnn : ¬ contentOf fr.base ≠ "" := fun hn => hn h4
    have hitem : processRssItem llm env style art
        = some { original_article := .rss art, summary := art.summary, key_points := [],
                 sentiment := { sentiment := "neutral", confidence := "low",
                                explanation := "Limited data" },
                 insights := [], summary_style := style, rss_data := some art } := by
      unfold processRssItem
      rw [if_pos h2, h3]
      simp only [if_neg hnn]
    refine ⟨hitem, ?_⟩
    have hne : parse_rss_feed feedOut limit ≠ [] := List.ne_nil_of_mem h1
    unfold process_rss_feed
    rw [if_neg hne]
    exact ⟨_, rfl, List.mem_filterMap.mpr ⟨art, h1, hitem⟩⟩
  · intro h2 h3 h4 h5
    obtain ⟨e, he⟩ : ∃ e, summarize_article llm fr style = .error e := by
      simp only [summarize_article]
      rw [if_pos (Or.inr h5)]
      exact ⟨_, rfl⟩
    unfold processRssItem
    rw [if_pos h2, h3]
    simp only [if_pos h4, he]

/-- Witness for C7's amended claim: the empty-content conjunct at a
one-entry feed whose link yields no content at all, and the
short-content conjunct at the 29-character re-fetch. -/
theorem C7_amended_witness :
    (processRssItem c7llm c7env "concise" c7rss
        = some { original_article := .rss c7rss, summary := c7rss.summary, key_points := [],
                 sentiment := { sentiment := "neutral", confidence := "low",
                                explanation := "Limited data" },
                 insights := [], summary_style := "concise", rss_data := some c7rss }
      ∧ ∃ out, process_rss_feed c7llm c7env c7feed "concise" 5 = .ok out
          ∧ ({ original_article := Orig.rss c7rss, summary := c7rss.summary, key_points := [],
               sentiment := { sentiment := "neutral", confidence := "low",
                              explanation := "Limited data" },
               insights := [], summary_style := "concise",
               rss_data := some c7rss } : SummaryData) ∈ out)
    ∧ processRssItem c7llm c7envShort "concise" c7rss = none :=
  ⟨(C7_amended c7llm c7env c7feed "concise" 5 c7rss c7fr).1
     (by decide) (by decide) rfl rfl,
   (C7_amended c7llm c7envShort c7feed "concise" 5 c7rss c7frShort).2
     (by decide) rfl (by decide) (by decide)⟩

/-! ## Claim C5: RSS per-item failures -/

set_option maxRecDepth 16384 in
/-- Counterexample to claim C5: a two-entry feed in which
summarization of the first entry raises a fatal-per-item error yields a
result list with a single element — the failed entry is silently
dropped by the per-item `except ... continue`, not captured as a tagged
error result alongside the successful one. -/
theorem C5_counterexample :
    (parse_rss_feed c5feed 5).length = 2
    ∧ Except.map List.length (process_rss_feed c5llm c5env c5feed "concise" 5)
        = Except.ok 1 :=
  ⟨rfl, rfl⟩

/-- Claim C5 as amended: a fatal-per-item error on one RSS entry causes
that entry to be skipped — it contributes no result at all, tagged or
otherwise — while the batch never aborts: the run still returns
normally with the per-entry results of the remaining items. -/
theorem C5_amended (llm : LLM) (env : String → ExtractInput) (style : String)
    (feedOut : Except String (List RawEntry)) (limit : Nat)
    (art : RssEntry) (fr : FinalRecord) (e : String)
    (h1 : parse_rss_feed feedOut limit ≠ [])
    (h2 : art.link ≠ "")
    (h3 : parse_news_url (env art.link).np (env art.link).fetch art.link = .ok fr)
    (h4 : contentOf fr.base ≠ "")
    (h5 : summarize_article llm fr style = .error e) :
    process_rss_feed llm env feedOut style limit
        = .ok ((parse_rss_feed feedOut limit).filterMap (processRssItem llm env style))
    ∧ processRssItem llm env style art = none := by
  constructor
  · unfold process_rss_feed
    rw [if_neg h1]
  · unfold processRssItem
    rw [if_pos h2, h3]
    simp only [if_pos h4, h5]

/-- Witness for C5's amended claim in the counterexample's world. -/
theorem C5_amended_witness :
    (parse_rss_feed c5feed 5 ≠ [])
    ∧ (process_rss_feed c5llm c5env c5feed "concise" 5
        = .ok ((parse_rss_feed c5feed 5).filterMap (processRssItem c5llm c5env "concise"))
      ∧ processRssItem c5llm c5env "concise" c5rss1 = none) :=
  ⟨by decide,
   C5_amended c5llm c5env "concise" c5feed 5 c5rss1 c5fr1
     "Article summarization failed: Summary generation failed: API error"
     (by decide) (by decide) rfl (by decide) rfl⟩

/-! ## Claim C9: two-tier key-point parsing -/

lemma keyPointLines_eq (ls : List (List Char)) :
    keyPointLines ls = ls.filterMap (fun l =>
      if lineKept (stripWS l) then
        (let cp := cleanMarker (stripWS l)
         if cp = [] then none else some cp)
      else none) := by
  induction ls with
  | nil => rfl
  | cons l ls ih =>
    by_cases h : lineKept (stripWS l) = true
    · by_cases h2 : cleanMarker (stripWS l) = []
      · simp [keyPointLines, List.filterMap_cons, h, h2, ih]
      · simp [keyPointLines, List.filterMap_cons, h, h2, ih]
    · simp [keyPointLines, List.filterMap_cons, h, ih]

lemma linePassSpec_eq (text : List Char) :
    linePassSpec text = keyPointLines (splitLinesPy text) := by
  rw [keyPointLines_eq]
  unfold linePassSpec
  rw [List.filterMap_map]
  rfl

/-- Claim C9: the key-point parser is two-tier.  The line pass keeps
exactly the lines whose first non-space character is a digit, bullet,
dash or asterisk, with the leading enumeration marker and surrounding
space stripped (a line that is nothing but marker characters is
dropped), in order; whenever it yields fewer items than the requested
count, the result is instead the sentence-split fallback — pieces
obtained by splitting on `.`/`!`/`?` whose stripped length exceeds 20 —
truncated to the requested count (the line-pass result is likewise
truncated when kept). -/
theorem C9_two_tier (llm : LLM) (content reply : String) (num_points : Nat)
    (h : llm keyPointsSystem (keyPointsPrompt content num_points) = .ok reply) :
    generate_key_points llm content num_points
        = if (linePassSpec (stripWS reply.data)).length < num_points
          then ((sentencePassSpec (stripWS reply.data)).take num_points).map
            (fun l => (⟨l⟩ : String))
          else ((linePassSpec (stripWS reply.data)).take num_points).map
            (fun l => (⟨l⟩ : String)) := by
  have hpk : parseKeyPointsText (stripWS reply.data) num_points
      = if (linePassSpec (stripWS reply.data)).length < num_points
        then (sentencePassSpec (stripWS reply.data)).take num_points
        else (linePassSpec (stripWS reply.data)).take num_points := by
    simp only [parseKeyPointsText]
    rw [← linePassSpec_eq]
    by_cases hl : (linePassSpec (stripWS reply.data)).length < num_points
    · simp only [if_pos hl, List.take_take, min_self, sentencePassSpec]
    · simp only [if_neg hl]
  simp only [generate_key_points, h, hpk,
    apply_ite (List.map (fun l => (⟨l⟩ : String)))]

/-- Witness for C9: a reply of two numbered lines, two points asked. -/
theorem C9_two_tier_witness :
    ((fun (_ _ : String) => (Except.ok "1. alpha point\n2. beta point" : Except String String))
        keyPointsSystem (keyPointsPrompt "body" 2) = .ok "1. alpha point\n2. beta point")
    ∧ generate_key_points (fun _ _ => .ok "1. alpha point\n2. beta point") "body" 2
        = if (linePassSpec (stripWS ("1. alpha point\n2. beta point" : String).data)).length < 2
          then ((sentencePassSpec (stripWS ("1. alpha point\n2. beta point" : String).data)).take 2).map
            (fun l => (⟨l⟩ : String))
          else ((linePassSpec (stripWS ("1. alpha point\n2. beta point" : String).data)).take 2).map
            (fun l => (⟨l⟩ : String)) :=
  ⟨rfl, C9_two_tier (fun _ _ => .ok "1. alpha point\n2. beta point") "body"
    "1. alpha point\n2. beta point" 2 rfl⟩

/-! ## Claim C2: Text Cleaner idempotence -/

lemma matchLowerPfx_some_hasPfx (p : List Char) :
    ∀ (s r : List Char), matchLowerPfx p s = some r → hasPfxB p (lowerL s) = true := by
  induction p with
  | nil => intro s r _; rfl
  | cons x ps ih =>
    intro s r h
    cases s with
    | nil => simp [matchLowerPfx] at h
    | cons c cs =>
      by_cases hc : c.toLower = x
      · simp only [matchLowerPfx, if_pos hc] at h
        rw [lowerL_cons]
        simp only [hasPfxB, Bool.and_eq_true, decide_eq_true_eq]
        exact ⟨hc.symm, ih cs r h⟩
      · simp [matchLowerPfx, hc] at h

lemma matchLowerPfx_none_of (p s : List Char) (h : hasPfxB p (lowerL s) = false) :
    matchLowerPfx p s = none := by
  cases hm : matchLowerPfx p s with
  | none => rfl
  | some r => rw [matchLowerPfx_some_hasPfx p s r hm] at h; cases h

lemma matchExactPfx_some_hasPfx (p : List Char) :
    ∀ (s r : List Char), matchExactPfx p s = some r → hasPfxB p s = true := by
  induction p with
  | nil => intro s r _; rfl
  | cons x ps ih =>
    intro s r h
    cases s with
    | nil => simp [matchExactPfx] at h
    | cons c cs =>
      by_cases hc : c = x
      · simp only [matchExactPfx, if_pos hc] at h
        simp [hasPfxB, hc, ih cs r h]
      · simp [matchExactPfx, hc] at h

lemma matchBoiler_none (s : List Char)
    (h1 : hasPfxB shareL (lowerL s) = false) (h2 : hasPfxB followL (lowerL s) = false)
    (h3 : hasPfxB subscribeL (lowerL s) = false)
    (h4 : hasPfxB newsletterL (lowerL s) = false) :
    matchBoiler s = none := by
  unfold matchBoiler
  rw [matchLowerPfx_none_of _ _ h1, matchLowerPfx_none_of _ _ h2,
    matchLowerPfx_none_of _ _ h3, matchLowerPfx_none_of _ _ h4]

lemma noBoilerB_iff (s : List Char) :
    noBoilerB s = true ↔
      containsB shareL (lowerL s) = false ∧ containsB followL (lowerL s) = false
      ∧ containsB subscribeL (lowerL s) = false
      ∧ containsB newsletterL (lowerL s) = false := by
  simp [noBoilerB, Bool.and_eq_true, Bool.not_eq_true', and_assoc]

lemma removePhrasesF_id :
    ∀ (f : Nat) (s : List Char), s.length ≤ f → noBoilerB s = true →
      removePhrasesF f s = s := by
  intro f
  induction f with
  | zero =>
    intro s hl _
    cases s with
    | nil => rfl
    | cons c cs => simp at hl
  | succ f ih =>
    intro s hl hb
    cases s with
    | nil => rfl
    | cons c cs =>
      obtain ⟨n1, n2, n3, n4⟩ := (noBoilerB_iff _).mp hb
      obtain ⟨p1, c1⟩ := containsB_cons_false _ _ _ n1
      obtain ⟨p2, c2⟩ := containsB_cons_false _ _ _ n2
      obtain ⟨p3, c3⟩ := containsB_cons_false _ _ _ n3
      obtain ⟨p4, c4⟩ := containsB_cons_false _ _ _ n4
      have hm : matchBoiler (c :: cs) = none := matchBoiler_none _ p1 p2 p3 p4
      have htail : noBoilerB cs = true := (noBoilerB_iff _).mpr ⟨c1, c2, c3, c4⟩
      simp only [removePhrasesF, hm]
      rw [ih cs (Nat.le_of_succ_le_succ hl) htail]

lemma matchURL_none (s : List Char) (h : hasPfxB httpL s = false) :
    matchURL s = none := by
  have h1 : matchExactPfx httpsSlashL s = none := by
    cases hm : matchExactPfx httpsSlashL s with
    | none => rfl
    | some r =>
      have hp : hasPfxB httpL s = true :=
        hasPfxB_of_append httpL ['s', ':', '/', '/'] s
          (matchExactPfx_some_hasPfx _ _ _ hm)
      rw [hp] at h; cases h
  have h2 : matchExactPfx httpSlashL s = none := by
    cases hm : matchExactPfx httpSlashL s with
    | none => rfl
    | some r =>
      have hp : hasPfxB httpL s = true :=
        hasPfxB_of_append httpL [':', '/', '/'] s
          (matchExactPfx_some_hasPfx _ _ _ hm)
      rw [hp] at h; cases h
  unfold matchURL
  rw [h1, h2]

lemma removeURLsF_id :
    ∀ (f : Nat) (s : List Char), s.length ≤ f → containsB httpL s = false →
      removeURLsF f s = s := by
  intro f
  induction f with
  | zero =>
    intro s hl _
    cases s with
    | nil => rfl
    | cons c cs => simp at hl
  | succ f ih =>
    intro s hl hc
    cases s with
    | nil => rfl
    | cons c cs =>
      obtain ⟨hp, htail⟩ := containsB_cons_false _ _ _ hc
      simp only [removeURLsF, matchURL_none _ hp]
      rw [ih cs (Nat.le_of_succ_le_succ hl) htail]

lemma allSpacesB_collapseAux : ∀ (s : List Char) (b : Bool),
    allSpacesB (collapseAux b s) = true := by
  intro s
  induction s with
  | nil => intro b; rfl
  | cons c cs ih =>
    intro b
    by_cases hw : isWS c = true
    · cases b <;> simp [collapseAux, hw, allSpacesB, ih]
    · simp [collapseAux, hw, allSpacesB, ih]

lemma headNotWS_collapseAux_true : ∀ s : List Char,
    headNotWS (collapseAux true s) = true := by
  intro s
  induction s with
  | nil => rfl
  | cons c cs ih =>
    by_cases hw : isWS c = true
    · simpa [collapseAux, hw] using ih
    · simp [collapseAux, hw, headNotWS]

lemma noDbl_tail (c : Char) (l : List Char) (h : noDblSpaceB (c :: l) = true) :
    noDblSpaceB l = true := by
  cases l with
  | nil => rfl
  | cons d ds => exact ((Bool.and_eq_true ..).mp h).2

lemma noDblSpaceB_collapseAux : ∀ (s : List Char) (b : Bool),
    noDblSpaceB (collapseAux b s) = true := by
  intro s
  induction s with
  | nil => intro b; rfl
  | cons c cs ih =>
    intro b
    by_cases hw : isWS c = true
    · cases b with
      | true => simpa [collapseAux, hw] using ih true
      | false =>
        have hh := headNotWS_collapseAux_true cs
        have ht := ih true
        cases hX : collapseAux true cs with
        | nil => simp [collapseAux, hw, hX, noDblSpaceB]
        | cons d ds =>
          rw [hX] at hh ht
          have hd : ¬ d = ' ' := by
            intro hd
            rw [hd] at hh
            simp [headNotWS, isWS] at hh
          simp [collapseAux, hw, hX, noDblSpaceB, ht, hd]
    · have ht := ih false
      cases hX : collapseAux false cs with
      | nil => simp [collapseAux, hw, hX, noDblSpaceB]
      | cons d ds =>
        rw [hX] at ht
        have hc : ¬ c = ' ' := by
          intro h
          rw [h] at hw
          simp [isWS] at hw
        simp [collapseAux, hw, hX, noDblSpaceB, ht, hc]

lemma collapseAux_fix : ∀ s : List Char,
    allSpacesB s = true → noDblSpaceB s = true → collapseAux false s = s := by
  intro s
  induction s with
  | nil => intro _ _; rfl
  | cons c cs ih =>
    intro ha hd
    have ha2 := (Bool.and_eq_true ..).mp ha
    by_cases hw : isWS c = true
    · have hcsp : c = ' ' := by
        rcases Bool.or_eq_true .. |>.mp ha2.1 with h | h
        · rw [Bool.not_eq_true'] at h; rw [h] at hw; cases hw
        · exact of_decide_eq_true h
      subst hcsp
      have htail : noDblSpaceB cs = true := noDbl_tail _ _ hd
      cases cs with
      | nil => simp [collapseAux, hw]
      | cons d ds =>
        have hdns : ¬ d = ' ' := by
          intro hds
          subst hds
          simp [noDblSpaceB] at hd
        have hdw : isWS d = false := by
          have := (Bool.and_eq_true ..).mp ha2.2 |>.1
          rcases Bool.or_eq_true .. |>.mp this with h | h
          · rwa [Bool.not_eq_true'] at h
          · exact absurd (of_decide_eq_true h) hdns
        have e1 : collapseAux true (d :: ds) = collapseAux false (d :: ds) := by
          simp [collapseAux, hdw]
        have e2 : collapseAux false (' ' :: d :: ds) = ' ' :: collapseAux true (d :: ds) := by
          simp [collapseAux, hw]
        rw [e2, e1, ih ha2.2 htail]
    · have e : collapseAux false (c :: cs) = c :: collapseAux false cs := by
        simp [collapseAux, hw]
      rw [e, ih ha2.2 (noDbl_tail _ _ hd)]

lemma allSpacesB_append_eq (a b : List Char) :
    allSpacesB (a ++ b) = (allSpacesB a && allSpacesB b) := by
  induction a with
  | nil => simp [allSpacesB]
  | cons c cs ih => simp [allSpacesB, ih, Bool.and_assoc]

lemma noDbl_append_right (a b : List Char) (h : noDblSpaceB (a ++ b) = true) :
    noDblSpaceB b = true := by
  induction a with
  | nil => exact h
  | cons c cs ih => exact ih (noDbl_tail _ _ h)

lemma noDbl_append_left (a b : List Char) (h : noDblSpaceB (a ++ b) = true) :
    noDblSpaceB a = true := by
  induction a with
  | nil => rfl
  | cons c cs ih =>
    cases cs with
    | nil => rfl
    | cons d ds =>
      have h2 := (Bool.and_eq_true ..).mp h
      exact (Bool.and_eq_true ..).mpr ⟨h2.1, ih h2.2⟩

lemma headNotWS_dropWhile (l : List Char) :
    headNotWS (l.dropWhile isWS) = true := by
  induction l with
  | nil => rfl
  | cons c cs ih =>
    by_cases h : isWS c = true
    · simpa [List.dropWhile_cons, h] using ih
    · simp [List.dropWhile_cons, h, headNotWS]

lemma dropWhile_of_headNot (l : List Char) (h : headNotWS l = true) :
    l.dropWhile isWS = l := by
  cases l with
  | nil => rfl
  | cons c cs =>
    simp only [headNotWS, Bool.not_eq_true'] at h
    simp [List.dropWhile_cons, h]

lemma dropEndWS_decomp (m : List Char) :
    m = dropEndWS m ++ (m.reverse.takeWhile isWS).reverse := by
  unfold dropEndWS
  conv_lhs => rw [← m.reverse_reverse]
  conv_lhs => rw [← List.takeWhile_append_dropWhile (p := isWS) (l := m.reverse)]
  rw [List.reverse_append]

lemma stripWS_decomp (l : List Char) :
    ∃ a b, l = a ++ stripWS l ++ b := by
  refine ⟨l.takeWhile isWS, ((l.dropWhile isWS).reverse.takeWhile isWS).reverse, ?_⟩
  unfold stripWS
  rw [List.append_assoc, ← dropEndWS_decomp (l.dropWhile isWS),
    List.takeWhile_append_dropWhile]

lemma dropWhile_dropWhile (l : List Char) :
    (l.dropWhile isWS).dropWhile isWS = l.dropWhile isWS :=
  dropWhile_of_headNot _ (headNotWS_dropWhile l)

lemma dropEndWS_idem (m : List Char) : dropEndWS (dropEndWS m) = dropEndWS m := by
  unfold dropEndWS
  rw [List.reverse_reverse, dropWhile_dropWhile]

lemma headNotWS_dropEndWS (m : List Char) (h : headNotWS m = true) :
    headNotWS (dropEndWS m) = true := by
  cases hE : dropEndWS m with
  | nil => rfl
  | cons d ds =>
    have hd := dropEndWS_decomp m
    rw [hE] at hd
    rw [hd] at h
    simpa [headNotWS] using h

lemma stripWS_idem (l : List Char) : stripWS (stripWS l) = stripWS l := by
  have h1 : headNotWS (stripWS l) = true :=
    headNotWS_dropEndWS _ (headNotWS_dropWhile l)
  show dropEndWS ((stripWS l).dropWhile isWS) = stripWS l
  rw [dropWhile_of_headNot _ h1]
  exact dropEndWS_idem _

lemma clean_text_of_ne (s : String) (hs : s ≠ "") :
    clean_text s = ⟨stripWS (removeURLs (removePhrases (collapseWS s.data)))⟩ := by
  unfold clean_text
  rw [if_neg hs]

/-- Counterexample to claim C2: the Text Cleaner is not idempotent.
Cleaning `"a Subscribe b"` removes the phrase after whitespace has
already been collapsed, leaving the double space `"a  b"`; cleaning
again collapses it to `"a b"`. -/
theorem C2_counterexample :
    clean_text (clean_text "a Subscribe b") ≠ clean_text "a Subscribe b" := by
  decide

/-- Claim C2 as amended: the Text Cleaner (whitespace collapse,
case-insensitive boilerplate-phrase removal, URL stripping, trim) is
not idempotent in general, but it is idempotent on every input whose
whitespace-collapsed form contains no boilerplate phrase
(case-insensitively) and no `"http"` substring — i.e. whenever the
phrase- and URL-removal passes have nothing to remove. -/
theorem C2_amended (s : String)
    (h1 : noBoilerB (collapseWS s.data) = true)
    (h2 : containsB httpL (collapseWS s.data) = false) :
    clean_text (clean_text s) = clean_text s := by
  by_cases hs : s = ""
  · subst hs; rfl
  · have hrp : removePhrases (collapseWS s.data) = collapseWS s.data :=
      removePhrasesF_id _ _ le_rfl h1
    have hru : removeURLs (collapseWS s.data) = collapseWS s.data :=
      removeURLsF_id _ _ le_rfl h2
    have hclean : clean_text s = ⟨stripWS (collapseWS s.data)⟩ := by
      rw [clean_text_of_ne s hs, hrp, hru]
    rw [hclean]
    by_cases ht : stripWS (collapseWS s.data) = []
    · rw [ht]; rfl
    · obtain ⟨a, b, hab⟩ := stripWS_decomp (collapseWS s.data)
      have hau : allSpacesB (collapseWS s.data) = true := allSpacesB_collapseAux s.data false
      have hdu : noDblSpaceB (collapseWS s.data) = true := noDblSpaceB_collapseAux s.data false
      have hat : allSpacesB (stripWS (collapseWS s.data)) = true := by
        rw [hab, allSpacesB_append_eq, allSpacesB_append_eq] at hau
        exact ((Bool.and_eq_true ..).mp ((Bool.and_eq_true ..).mp hau).1).2
      have hdt : noDblSpaceB (stripWS (collapseWS s.data)) = true :=
        noDbl_append_right a _ (noDbl_append_left _ b (hab ▸ hdu))
      have hlow : lowerL (collapseWS s.data)
          = (lowerL a ++ lowerL (stripWS (collapseWS s.data))) ++ lowerL b := by
        conv_lhs => rw [hab]
        rw [lowerL_append, lowerL_append]
      have hnb : noBoilerB (stripWS (collapseWS s.data)) = true := by
        obtain ⟨n1, n2, n3, n4⟩ := (noBoilerB_iff _).mp h1
        rw [hlow] at n1 n2 n3 n4
        exact (noBoilerB_iff _).mpr
          ⟨containsB_mid_false _ _ _ _ n1, containsB_mid_false _ _ _ _ n2,
           containsB_mid_false _ _ _ _ n3, containsB_mid_false _ _ _ _ n4⟩
      have hnh : containsB httpL (stripWS (collapseWS s.data)) = false := by
        rw [hab] at h2
        exact containsB_mid_false _ _ _ _ h2
      have hne : (⟨stripWS (collapseWS s.data)⟩ : String) ≠ "" := by
        intro hh
        exact ht (congrArg String.data hh)
      rw [clean_text_of_ne _ hne]
      show String.mk (stripWS (removeURLs (removePhrases
        (collapseWS (stripWS (collapseWS s.data)))))) = _
      rw [show collapseWS (stripWS (collapseWS s.data)) = stripWS (collapseWS s.data) from
        collapseAux_fix _ hat hdt]
      rw [show removePhrases (stripWS (collapseWS s.data)) = stripWS (collapseWS s.data) from
        removePhrasesF_id _ _ le_rfl hnb]
      rw [show removeURLs (stripWS (collapseWS s.data)) = stripWS (collapseWS s.data) from
        removeURLsF_id _ _ le_rfl hnh]
      rw [stripWS_idem]

/-- Witness for C2's amended claim on a phrase- and URL-free input with
irregular whitespace. -/
theorem C2_amended_witness :
    (noBoilerB (collapseWS "Markets  rallied \t sharply today".data) = true)
    ∧ (containsB httpL (collapseWS "Markets  rallied \t sharply today".data) = false)
    ∧ clean_text (clean_text "Markets  rallied \t sharply today")
        = clean_text "Markets  rallied \t sharply today" :=
  ⟨by decide, by decide, C2_amended "Markets  rallied \t sharply today" (by decide) (by decide)⟩
